import Mathlib

/-!
Verification of the NetFlow v5 / IPFIX collector decode pipeline.

The development shallowly embeds the decode core of the collector:

* `Netflow5` — the fixed-layout NetFlow v5 codec (`src/flow/netflow5.rs`);
* `Ipfix` — the template-driven IPFIX codec (`src/flow/ipfix.rs`);
* the ingest logic of `src/threads/listener.rs`: `parse_v5_msg`,
  `parse_ipfix_msg` (with its per-exporter template cache) and the body of
  the `listen` receive loop.

Datagrams are byte lists (`List Nat`, one entry per octet).  Rust machine
integers become `Nat` with an explicit `% 2 ^ w` where overflow can occur.
Fallible decoders return `Except String` exactly where the Rust returns
`Result<_, String>`; a Rust panic (out-of-bounds slicing) is modelled by
`Option.none` in the functions where it is reachable.  Rust `HashMap`s are
modelled by association lists with replace-on-insert semantics; only lookup
semantics, not iteration order, is relied upon.  The `while` loops of the
source become fuel-indexed structural recursions; the fuel given is always
sufficient except where the Rust itself would loop forever (a data-set
template of total length zero), in which case the model returns an error.
`usize` wrap-around on subtraction is not modelled (no claim depends on set
lengths below 4).
-/

set_option maxRecDepth 4000

/-! ### Byte-level primitives -/

/-- Big-endian value of a byte list: models `uN::from_be_bytes`. -/
def beNat (l : List Nat) : Nat := l.foldl (fun a b => a * 256 + b) 0

/-- `bslice buf a b` models the Rust slice `buf[a..b]` (at in-bounds uses). -/
def bslice (buf : List Nat) (a b : Nat) : List Nat := (buf.drop a).take (b - a)

/-- `byteAt buf i` models `buf[i]` (at in-bounds uses). -/
def byteAt (buf : List Nat) (i : Nat) : Nat := buf.getD i 0

namespace Netflow5

/-- `flow::netflow5::VERSION` -/
def VERSION : Nat := 5

/-- NetFlow v5 message header, from `src/flow/netflow5.rs` (`Header`). -/
structure Header where
  version : Nat
  count : Nat
  uptime : Nat
  unix_secs : Nat
  unix_nsecs : Nat
  seq_number : Nat
  engine_type : Nat
  engine_id : Nat
  sampl : Nat
deriving DecidableEq, Repr

namespace Header

/-- `Header::SIZE` -/
def SIZE : Nat := 24

/-- `Header::read` from `src/flow/netflow5.rs`. -/
def read (buf : List Nat) : Except String Header :=
  if buf.length < SIZE then
    .error "Not enough space in buffer to read the NETFLOW V5 Header"
  else
    .ok { version := beNat (bslice buf 0 2)
          count := beNat (bslice buf 2 4)
          uptime := beNat (bslice buf 4 8)
          unix_secs := beNat (bslice buf 8 12)
          unix_nsecs := beNat (bslice buf 12 16)
          seq_number := beNat (bslice buf 16 20)
          engine_type := byteAt buf 20
          engine_id := byteAt buf 21
          sampl := beNat (bslice buf 22 24) }

/-- `Header::sampl_mode`: the high 2 bits of the sampling word. -/
def sampl_mode (h : Header) : Nat := h.sampl / 16384

/-- `Header::sampl_interval`: the low 14 bits of the sampling word
(`sampl & 0b0011_1111_1111_1111`). -/
def sampl_interval (h : Header) : Nat := h.sampl % 16384

end Header

/-- NetFlow v5 record, from `src/flow/netflow5.rs` (`DataSet`). -/
structure DataSet where
  src_addr : Nat
  dst_addr : Nat
  next_hop : Nat
  input_int : Nat
  output_int : Nat
  packets : Nat
  octets : Nat
  start_time : Nat
  end_time : Nat
  src_port : Nat
  dst_port : Nat
  pad1 : Nat
  tcp_flag : Nat
  protocol : Nat
  tos : Nat
  src_as : Nat
  dst_as : Nat
  src_mask : Nat
  dst_mask : Nat
  pad2 : Nat
deriving DecidableEq, Repr

namespace DataSet

/-- `DataSet::SIZE` -/
def SIZE : Nat := 48

/-- `DataSet::read` from `src/flow/netflow5.rs`: the 48-octet fixed layout. -/
def read (buf : List Nat) : Except String DataSet :=
  if buf.length < SIZE then
    .error "Not enough space in buffer to read the NETFLOW V5 DataSet"
  else
    .ok { src_addr := beNat (bslice buf 0 4)
          dst_addr := beNat (bslice buf 4 8)
          next_hop := beNat (bslice buf 8 12)
          input_int := beNat (bslice buf 12 14)
          output_int := beNat (bslice buf 14 16)
          packets := beNat (bslice buf 16 20)
          octets := beNat (bslice buf 20 24)
          start_time := beNat (bslice buf 24 28)
          end_time := beNat (bslice buf 28 32)
          src_port := beNat (bslice buf 32 34)
          dst_port := beNat (bslice buf 34 36)
          pad1 := byteAt buf 36
          tcp_flag := byteAt buf 37
          protocol := byteAt buf 38
          tos := byteAt buf 39
          src_as := beNat (bslice buf 40 42)
          dst_as := beNat (bslice buf 42 44)
          src_mask := byteAt buf 44
          dst_mask := byteAt buf 45
          pad2 := beNat (bslice buf 46 48) }

/-- `DataSet::duration` (`end_time - start_time`). -/
def duration (d : DataSet) : Nat := d.end_time - d.start_time

/-- `DataSet::add_sampling`: multiply octet and packet counters (u32
arithmetic) when the sampling interval is positive. -/
def add_sampling (d : DataSet) (sampling : Nat) : DataSet :=
  if sampling > 0 then
    { d with octets := d.octets * sampling % 2 ^ 32
             packets := d.packets * sampling % 2 ^ 32 }
  else d

end DataSet

end Netflow5

/-! ### The legacy v5 codec (`src/netflow/v5.rs`)

An earlier generation of the codec survives in the tree; its `DataSet::read`
assigns the 16..20 word to `octets` and the 20..24 word to `packets`, the
opposite of the layout in the Cisco format it cites and of the pipeline
codec above.  It is embedded for comparison. -/

namespace NetflowV5Legacy

/-- `DataSet::read` from `src/netflow/v5.rs` (only the two swapped counter
fields differ from `Netflow5.DataSet.read`; it also has no length guard). -/
def read (buf : List Nat) : Except String Netflow5.DataSet :=
  .ok { src_addr := beNat (bslice buf 0 4)
        dst_addr := beNat (bslice buf 4 8)
        next_hop := beNat (bslice buf 8 12)
        input_int := beNat (bslice buf 12 14)
        output_int := beNat (bslice buf 14 16)
        octets := beNat (bslice buf 16 20)
        packets := beNat (bslice buf 20 24)
        start_time := beNat (bslice buf 24 28)
        end_time := beNat (bslice buf 28 32)
        src_port := beNat (bslice buf 32 34)
        dst_port := beNat (bslice buf 34 36)
        pad1 := byteAt buf 36
        tcp_flag := byteAt buf 37
        protocol := byteAt buf 38
        tos := byteAt buf 39
        src_as := beNat (bslice buf 40 42)
        dst_as := beNat (bslice buf 42 44)
        src_mask := byteAt buf 44
        dst_mask := byteAt buf 45
        pad2 := beNat (bslice buf 46 48) }

end NetflowV5Legacy

/-! ### `parse_v5_msg` (`src/threads/listener.rs`) -/

/-- The record-reading `while` loop of `parse_v5_msg`: reads 48-octet
records at `offset`, applies sampling, until `offset < buf.len()` fails.
Fuel-indexed; the caller passes more fuel than iterations possible. -/
def v5_loop (buf : List Nat) (sampl : Nat) :
    Nat → Nat → List Netflow5.DataSet → Except String (List Netflow5.DataSet)
  | 0, _, _ => .error "recursion limit"
  | fuel + 1, offset, acc =>
    if offset < buf.length then
      match Netflow5.DataSet.read (buf.drop offset) with
      | .error e => .error e
      | .ok pdu => v5_loop buf sampl fuel (offset + 48) (acc ++ [pdu.add_sampling sampl])
    else .ok acc

/-- `parse_v5_msg` from `src/threads/listener.rs`.  The Rust slices
`&buf[0..Header::SIZE]` before any length check: for datagrams shorter than
24 octets this panics, modelled by `none`. -/
def parse_v5_msg (buf : List Nat) : Option (Except String (List Netflow5.DataSet)) :=
  if buf.length < Netflow5.Header.SIZE then
    none
  else
    match Netflow5.Header.read (bslice buf 0 Netflow5.Header.SIZE) with
    | .error e => some (.error e)
    | .ok header =>
      let nb_pdu := (buf.length - Netflow5.Header.SIZE) / Netflow5.DataSet.SIZE
      if nb_pdu ≠ header.count then
        some (.error "Mismatch pdu number")
      else
        some (v5_loop buf header.sampl_interval (buf.length + 1) Netflow5.Header.SIZE [])

/-! ### IPFIX codec (`src/flow/ipfix.rs`) -/

namespace Ipfix

/-- `flow::ipfix::VERSION` -/
def VERSION : Nat := 10

/-- The IANA information-element identifier.  The Rust `FieldType` is a
dense `u16` enum; the model keeps the numeric id and reproduces the
derived `FromPrimitive::from_u16` by the predicate below. -/
abbrev FieldType := Nat

/-- The ids assigned in the Rust `FieldType` enum: `0..=491` except the
ranges the enum skips (`65..=69`, `97`, `105..=127`, reserved for NetFlow
v9 compatibility, and the unassigned `416` and deprecated `419`). -/
def FieldType.known (n : Nat) : Bool :=
  n ≤ 491 && !(65 ≤ n && n ≤ 69) && n != 97 && !(105 ≤ n && n ≤ 127) &&
    n != 416 && n != 419

/-- `FromPrimitive::from_u16` for `FieldType`. -/
def FieldType.from_u16 (n : Nat) : Option FieldType :=
  if FieldType.known n then some n else none

/-- `FieldType::OctetDeltaCount` -/
def FieldType.OctetDeltaCount : FieldType := 1

/-- `FieldType::PacketDeltaCount` -/
def FieldType.PacketDeltaCount : FieldType := 2

/-- `FieldType::SamplingInterval` -/
def FieldType.SamplingInterval : FieldType := 34

/-- `FieldValue` from `src/flow/ipfix.rs`. -/
inductive FieldValue where
  | U8 (v : Nat)
  | U16 (v : Nat)
  | U32 (v : Nat)
  | U64 (v : Nat)
  | U128 (v : Nat)
  | Dyn (v : List Nat)
deriving DecidableEq, Repr

/-- IPFIX message header (`Header`). -/
structure Header where
  version : Nat
  length : Nat
  export_time : Nat
  seq_number : Nat
  domain_id : Nat
deriving DecidableEq, Repr

namespace Header

/-- `Header::SIZE` -/
def SIZE : Nat := 16

/-- `Header::read` -/
def read (buf : List Nat) : Except String Header :=
  if buf.length < SIZE then
    .error "Not enough space in buffer to read the IPFIX HEADER_SIZE"
  else
    .ok { version := beNat (bslice buf 0 2)
          length := beNat (bslice buf 2 4)
          export_time := beNat (bslice buf 4 8)
          seq_number := beNat (bslice buf 8 12)
          domain_id := beNat (bslice buf 12 16) }

end Header

/-- IPFIX set header (`SetHeader`). -/
structure SetHeader where
  id : Nat
  length : Nat
deriving DecidableEq, Repr

namespace SetHeader

/-- `SetHeader::SIZE` -/
def SIZE : Nat := 4

/-- `SetHeader::read` -/
def read (buf : List Nat) : Except String SetHeader :=
  if buf.length < SIZE then
    .error "Not enough space in buffer to read IPFIX SetHeader"
  else
    .ok { id := beNat (bslice buf 0 2), length := beNat (bslice buf 2 4) }

/-- `SetHeader::content_size` (`length - SIZE`). -/
def content_size (s : SetHeader) : Nat := s.length - SIZE

end SetHeader

/-- IPFIX template header (`TemplateHeader`). -/
structure TemplateHeader where
  id : Nat
  field_count : Nat
deriving DecidableEq, Repr

namespace TemplateHeader

/-- `TemplateHeader::SIZE` -/
def SIZE : Nat := 4

/-- `TemplateHeader::read` -/
def read (buf : List Nat) : Except String TemplateHeader :=
  if buf.length < SIZE then
    .error "Not enough space in buffer to read IPFIX TemplateHeader"
  else
    .ok { id := beNat (bslice buf 0 2), field_count := beNat (bslice buf 2 4) }

end TemplateHeader

/-- IPFIX template record field (`TemplateField`). -/
structure TemplateField where
  id : FieldType
  length : Nat
deriving DecidableEq, Repr

namespace TemplateField

/-- `TemplateField::SIZE` -/
def SIZE : Nat := 4

/-- `TemplateField::read`: resolving an id absent from the registry is a
decode error. -/
def read (buf : List Nat) : Except String TemplateField :=
  if buf.length < SIZE then
    .error "Not enough space in buffer to read IPFIX TemplateField"
  else
    let id_num := beNat (bslice buf 0 2)
    match FieldType.from_u16 id_num with
    | some id => .ok { id := id, length := beNat (bslice buf 2 4) }
    | none => .error (String.append "No FieldType found for value : " (toString id_num))

end TemplateField

/-- IPFIX option-template header (`OptionTemplateHeader`). -/
structure OptionTemplateHeader where
  id : Nat
  field_count : Nat
  scope_field_count : Nat
deriving DecidableEq, Repr

namespace OptionTemplateHeader

/-- `OptionTemplateHeader::SIZE` -/
def SIZE : Nat := 6

/-- `OptionTemplateHeader::read` -/
def read (buf : List Nat) : Except String OptionTemplateHeader :=
  if buf.length < SIZE then
    .error "Not enough space in buffer to read IPFIX OptionTemplateHeader"
  else
    .ok { id := beNat (bslice buf 0 2)
          field_count := beNat (bslice buf 2 4)
          scope_field_count := beNat (bslice buf 4 6) }

end OptionTemplateHeader

/-! ### IPFIX data records

The Rust `DataSet` holds a `HashMap<FieldType, FieldValue>`; the model is an
association list with the replace-on-insert semantics of `HashMap::insert`.
Only lookups (and the entry count) are observed, never iteration order. -/

/-- `HashMap::insert`: replace the entry of the key, or append a new one. -/
def insertRep (k : FieldType) (v : FieldValue) :
    List (FieldType × FieldValue) → List (FieldType × FieldValue)
  | [] => [(k, v)]
  | (k', v') :: rest =>
    if k' = k then (k, v) :: rest else (k', v') :: insertRep k v rest

/-- A decoded IPFIX data record (`DataSet`). -/
structure DataSet where
  fields : List (FieldType × FieldValue)
deriving DecidableEq, Repr

/-- `DataSet::MIN_SET_ID` -/
def DataSet.MIN_SET_ID : Nat := 256

/-- The per-field dispatch of `DataSet::read`: the `match field.length`
of the source, reading at `offset`. -/
def readOne (buf : List Nat) (offset len : Nat) : FieldValue :=
  match len with
  | 1 => .U8 (byteAt buf offset)
  | 2 => .U16 (beNat (bslice buf offset (offset + 2)))
  | 4 => .U32 (beNat (bslice buf offset (offset + 4)))
  | 8 => .U64 (beNat (bslice buf offset (offset + 8)))
  | 16 => .U128 (beNat (bslice buf offset (offset + 16)))
  | _ => .Dyn (bslice buf offset (offset + len))

/-- The field-reading loop of `DataSet::read`: dispatch on the declared
length, insert into the map, advance by the length. -/
def readFields (buf : List Nat) :
    List TemplateField → Nat → List (FieldType × FieldValue) →
    List (FieldType × FieldValue)
  | [], _, m => m
  | f :: rest, offset, m =>
    readFields buf rest (offset + f.length) (insertRep f.id (readOne buf offset f.length) m)

/-- `DataSet::read` from `src/flow/ipfix.rs`. -/
def DataSet.read (buf : List Nat) (field_list : List TemplateField)
    (min_size : Nat) : Except String DataSet :=
  if buf.length < min_size then
    .error "Not enough space in buffer to read IPFIX DataSet"
  else
    .ok { fields := readFields buf field_list 0 [] }

/-- The `get_mut` update of `DataSet::add_sampling`: multiply the entry of
the key by `sampling` (u64 arithmetic) when it is present as a `U64`. -/
def scaleU64 (k : FieldType) (sampling : Nat) :
    List (FieldType × FieldValue) → List (FieldType × FieldValue)
  | [] => []
  | (k', v') :: rest =>
    if k' = k then
      match v' with
      | .U64 v => (k', .U64 (v * sampling % 2 ^ 64)) :: rest
      | _ => (k', v') :: rest
    else (k', v') :: scaleU64 k sampling rest

/-- `DataSet::add_sampling` from `src/flow/ipfix.rs`. -/
def DataSet.add_sampling (d : DataSet) (sampling : Nat) : DataSet :=
  if sampling > 0 then
    { fields := scaleU64 FieldType.PacketDeltaCount sampling
        (scaleU64 FieldType.OctetDeltaCount sampling d.fields) }
  else d

/-! ### Templates -/

/-- `DataSetTemplate` (an ordinary template). -/
structure DataSetTemplate where
  header : TemplateHeader
  fields : List TemplateField
  length : Nat
deriving DecidableEq, Repr

/-- `DataSetTemplate::SET_ID` -/
def DataSetTemplate.SET_ID : Nat := 2

/-- The field loop shared by `DataSetTemplate::read` and
`OptionDataSetTemplate::read`: read `n` template fields, accumulating the
field list and the total record length; the result is
`(fields, length, offset)`. -/
def fieldsLoop (buf : List Nat) :
    Nat → Nat → List TemplateField → Nat →
    Except String (List TemplateField × Nat × Nat)
  | 0, offset, fields, length => .ok (fields, length, offset)
  | n + 1, offset, fields, length =>
    match TemplateField.read (buf.drop offset) with
    | .error e => .error e
    | .ok f => fieldsLoop buf n (offset + TemplateField.SIZE)
        (fields ++ [f]) (length + f.length)

/-- `DataSetTemplate::read`: header, then `field_count` fields; returns the
template and the bytes consumed. -/
def DataSetTemplate.read (buf : List Nat) :
    Except String (DataSetTemplate × Nat) :=
  match TemplateHeader.read buf with
  | .error e => .error e
  | .ok header =>
    match fieldsLoop buf header.field_count TemplateHeader.SIZE [] 0 with
    | .error e => .error e
    | .ok (fields, length, offset) =>
      .ok ({ header := header, fields := fields, length := length }, offset)

/-- `OptionDataSetTemplate` (an option template). -/
structure OptionDataSetTemplate where
  header : OptionTemplateHeader
  fields : List TemplateField
  length : Nat
deriving DecidableEq, Repr

/-- `OptionDataSetTemplate::SET_ID` -/
def OptionDataSetTemplate.SET_ID : Nat := 3

/-- `OptionDataSetTemplate::read`. -/
def OptionDataSetTemplate.read (buf : List Nat) :
    Except String (OptionDataSetTemplate × Nat) :=
  match OptionTemplateHeader.read buf with
  | .error e => .error e
  | .ok header =>
    match fieldsLoop buf header.field_count OptionTemplateHeader.SIZE [] 0 with
    | .error e => .error e
    | .ok (fields, length, offset) =>
      .ok ({ header := header, fields := fields, length := length }, offset)

end Ipfix

/-- `flow::Template`: the tagged variant stored in the template cache. -/
inductive Template where
  | IpfixDataSet (t : Ipfix.DataSetTemplate)
  | IpfixOptionDataSet (t : Ipfix.OptionDataSetTemplate)
deriving DecidableEq, Repr

/-! ### The listener (`src/threads/listener.rs`) -/

/-- An exporter source address (`std::net::IpAddr`; only its role as a
cache key matters, modelled as the four octets of an IPv4 address). -/
structure IpAddr where
  a : Nat
  b : Nat
  c : Nat
  d : Nat
deriving DecidableEq, Repr

/-- `Exporter`: the compound template-cache key. -/
structure Exporter where
  addr : IpAddr
  domain_id : Nat
deriving DecidableEq, Repr

/-- `ExporterInfos`: per-exporter sampling interval and template map. -/
structure ExporterInfos where
  sampling : Nat
  template : List (Nat × Template)
deriving DecidableEq, Repr

/-- `ExporterInfos::default` (sampling 1, no templates). -/
def ExporterInfos.default : ExporterInfos := { sampling := 1, template := [] }

/-- `ExporterList = HashMap<Exporter, ExporterInfos>`. -/
abbrev ExporterList := List (Exporter × ExporterInfos)

/-- `HashMap::get` on the exporter map. -/
def lookupExporter (st : ExporterList) (key : Exporter) : Option ExporterInfos :=
  match st with
  | [] => none
  | (k, v) :: rest => if k = key then some v else lookupExporter rest key

/-- Store `infos` under `key`, replacing any previous entry (the effect of
mutating through `get_mut` / `entry`). -/
def storeExporter (st : ExporterList) (key : Exporter) (infos : ExporterInfos) :
    ExporterList :=
  match st with
  | [] => [(key, infos)]
  | (k, v) :: rest =>
    if k = key then (key, infos) :: rest else (k, v) :: storeExporter rest key infos

/-- `exporter_list.entry(key).or_default()` followed by a mutation `f`. -/
def updateExporter (st : ExporterList) (key : Exporter)
    (f : ExporterInfos → ExporterInfos) : ExporterList :=
  match lookupExporter st key with
  | some infos => storeExporter st key (f infos)
  | none => storeExporter st key (f ExporterInfos.default)

/-- `HashMap::insert` on a template map. -/
def insertTemplate (id : Nat) (t : Template) :
    List (Nat × Template) → List (Nat × Template)
  | [] => [(id, t)]
  | (k, v) :: rest =>
    if k = id then (id, t) :: rest else (k, v) :: insertTemplate id t rest

/-- The template-set `while` loop of `parse_ipfix_msg` (`set.id == 2`):
read templates and install them under `(source, domain)` until fewer than
`padding` bytes remain in the set.  Mutations made before an error persist,
as they do through the Rust `&mut` state. -/
def templateLoop (src : IpAddr) (dom : Nat) (buf : List Nat) (endOfSet : Nat) :
    Nat → Nat → ExporterList → ExporterList × Except String Unit
  | 0, _, st => (st, .error "recursion limit")
  | fuel + 1, offset, st =>
    if offset + 4 < endOfSet then
      match Ipfix.DataSetTemplate.read (buf.drop offset) with
      | .error e => (st, .error e)
      | .ok (template, size_read) =>
        let st := updateExporter st { addr := src, domain_id := dom }
          (fun infos => { infos with
            template := insertTemplate template.header.id (.IpfixDataSet template) infos.template })
        templateLoop src dom buf endOfSet fuel (offset + size_read) st
    else (st, .ok ())

/-- The option-template-set `while` loop of `parse_ipfix_msg`
(`set.id == 3`). -/
def optionTemplateLoop (src : IpAddr) (dom : Nat) (buf : List Nat) (endOfSet : Nat) :
    Nat → Nat → ExporterList → ExporterList × Except String Unit
  | 0, _, st => (st, .error "recursion limit")
  | fuel + 1, offset, st =>
    if offset + 4 < endOfSet then
      match Ipfix.OptionDataSetTemplate.read (buf.drop offset) with
      | .error e => (st, .error e)
      | .ok (option_template, size_read) =>
        let st := updateExporter st { addr := src, domain_id := dom }
          (fun infos => { infos with
            template := insertTemplate option_template.header.id
              (.IpfixOptionDataSet option_template) infos.template })
        optionTemplateLoop src dom buf endOfSet fuel (offset + size_read) st
    else (st, .ok ())

/-- The data-set `while` loop for an ordinary template: decode records of
`t.length` bytes, apply sampling, collect them for emission. -/
def dataLoop (buf : List Nat) (t : Ipfix.DataSetTemplate) (sampling : Nat)
    (endOfSet : Nat) :
    Nat → Nat → List Ipfix.DataSet → List Ipfix.DataSet × Except String Unit
  | 0, _, acc => (acc, .error "recursion limit")
  | fuel + 1, offset, acc =>
    if offset + 4 < endOfSet then
      match Ipfix.DataSet.read (buf.drop offset) t.fields t.length with
      | .error e => (acc, .error e)
      | .ok msg =>
        dataLoop buf t sampling endOfSet fuel (offset + t.length)
          (acc ++ [msg.add_sampling sampling])
    else (acc, .ok ())

/-- The option-data update of `parse_ipfix_msg`: when the record carries
`SamplingInterval` as a `U32` differing from the current sampling, store it. -/
def applySamplingRecord (infos : ExporterInfos) (msg : Ipfix.DataSet) :
    ExporterInfos :=
  match List.lookup Ipfix.FieldType.SamplingInterval msg.fields with
  | some (.U32 v) => if infos.sampling ≠ v then { infos with sampling := v } else infos
  | _ => infos

/-- The data-set `while` loop for an option template: decode records, do
not emit them, but update the exporter's sampling interval from any
`SamplingInterval` field. -/
def optionDataLoop (buf : List Nat) (t : Ipfix.OptionDataSetTemplate)
    (endOfSet : Nat) :
    Nat → Nat → ExporterInfos → ExporterInfos × Except String Unit
  | 0, _, infos => (infos, .error "recursion limit")
  | fuel + 1, offset, infos =>
    if offset + 4 < endOfSet then
      match Ipfix.DataSet.read (buf.drop offset) t.fields t.length with
      | .error e => (infos, .error e)
      | .ok msg =>
        optionDataLoop buf t endOfSet fuel (offset + t.length)
          (applySamplingRecord infos msg)
    else (infos, .ok ())

/-- The outer set-walking `while` loop of `parse_ipfix_msg`: read a set
header, dispatch on the set id, then jump to the end of the set. -/
def walkSets (src : IpAddr) (dom : Nat) (buf : List Nat) :
    Nat → Nat → ExporterList → List Ipfix.DataSet →
    ExporterList × Except String (List Ipfix.DataSet)
  | 0, _, st, _ => (st, .error "recursion limit")
  | fuel + 1, offset, st, acc =>
    if offset < buf.length then
      match Ipfix.SetHeader.read (buf.drop offset) with
      | .error e => (st, .error e)
      | .ok set =>
        let offset1 := offset + Ipfix.SetHeader.SIZE
        let endOfSet := offset1 + set.content_size
        if set.id = Ipfix.DataSetTemplate.SET_ID then
          match templateLoop src dom buf endOfSet (endOfSet + 1) offset1 st with
          | (st', .error e) => (st', .error e)
          | (st', .ok ()) => walkSets src dom buf fuel endOfSet st' acc
        else if set.id = Ipfix.OptionDataSetTemplate.SET_ID then
          match optionTemplateLoop src dom buf endOfSet (endOfSet + 1) offset1 st with
          | (st', .error e) => (st', .error e)
          | (st', .ok ()) => walkSets src dom buf fuel endOfSet st' acc
        else if Ipfix.DataSet.MIN_SET_ID ≤ set.id then
          match lookupExporter st { addr := src, domain_id := dom } with
          | none => walkSets src dom buf fuel endOfSet st acc
          | some infos =>
            match List.lookup set.id infos.template with
            | none => walkSets src dom buf fuel endOfSet st acc
            | some (.IpfixDataSet t) =>
              match dataLoop buf t infos.sampling endOfSet (endOfSet + 1) offset1 acc with
              | (_, .error e) => (st, .error e)
              | (acc', .ok ()) => walkSets src dom buf fuel endOfSet st acc'
            | some (.IpfixOptionDataSet t) =>
              match optionDataLoop buf t endOfSet (endOfSet + 1) offset1 infos with
              | (infos', .error e) =>
                (storeExporter st { addr := src, domain_id := dom } infos', .error e)
              | (infos', .ok ()) =>
                walkSets src dom buf fuel endOfSet
                  (storeExporter st { addr := src, domain_id := dom } infos') acc
        else (st, .error "Invalide SetHeader id read")
    else (st, .ok acc)

/-- `parse_ipfix_msg` from `src/threads/listener.rs`: header and length
check, then the set walk.  Returns the updated exporter cache (mutations
persist even on error) and the emitted records or the decode error. -/
def parse_ipfix_msg (src : IpAddr) (buf : List Nat) (st : ExporterList) :
    ExporterList × Except String (List Ipfix.DataSet) :=
  match Ipfix.Header.read buf with
  | .error e => (st, .error e)
  | .ok header =>
    if buf.length ≠ header.length then
      (st, .error "Mismatch size read from the ipfix header and the packet size")
    else
      walkSets src header.domain_id buf (buf.length + 1) Ipfix.Header.SIZE st []

/-! ### The receive-loop body (`listen`) -/

/-- `Box<dyn Flow>`: the two record kinds the listener produces. -/
inductive FlowMsg where
  | v5 (d : Netflow5.DataSet)
  | ipfix (d : Ipfix.DataSet)
deriving DecidableEq, Repr

deriving instance DecidableEq for Except

/-- What one iteration of the `listen` loop does with a datagram. -/
inductive StepResult where
  | tooShort
  | badVersion
  | parsed (r : Except String (List FlowMsg))
  | panicked
deriving DecidableEq, Repr

/-- One iteration of the `listen` receive loop of `src/threads/listener.rs`
on a received datagram: the length guard, the version dispatch, and what is
pushed onto the consumer channel.  The `sender.send` of the source is
commented out (lines 60–67), so the decoded list is dropped and the pushed
list is always empty. -/
def listen_step (src : IpAddr) (dgram : List Nat) (st : ExporterList) :
    ExporterList × List (List FlowMsg) × StepResult :=
  if dgram.length < 2 then (st, [], .tooShort)
  else
    let version := beNat (bslice dgram 0 2)
    if version = Netflow5.VERSION then
      match parse_v5_msg dgram with
      | none => (st, [], .panicked)
      | some (.error e) => (st, [], .parsed (.error e))
      | some (.ok l) => (st, [], .parsed (.ok (l.map FlowMsg.v5)))
    else if version = Ipfix.VERSION then
      match parse_ipfix_msg src dgram st with
      | (st', .error e) => (st', [], .parsed (.error e))
      | (st', .ok l) => (st', [], .parsed (.ok (l.map FlowMsg.ipfix)))
    else (st, [], .badVersion)

/-! ### Observers used by the statements -/

/-- Whether an `Except` result is a success. -/
def exceptOk {α : Type} : Except String α → Bool
  | .ok _ => true
  | .error _ => false

/-- The records of a successful v5 parse (`none` on panic or error). -/
def v5Records (r : Option (Except String (List Netflow5.DataSet))) :
    Option (List Netflow5.DataSet) :=
  match r with
  | some (.ok l) => some l
  | _ => none

/-- The v5 `count` header field of a datagram. -/
def v5Count (buf : List Nat) : Nat := beNat (bslice buf 2 4)

/-- The number of records a `listen` iteration decoded (`none` when the
iteration did not produce a successful parse). -/
def parsedCount : StepResult → Option Nat
  | .parsed (.ok l) => some l.length
  | _ => none

/-- The observation domain id of an IPFIX datagram. -/
def domainOf (buf : List Nat) : Nat := beNat (bslice buf 12 16)

/-- The set ids of an IPFIX datagram, walking set headers exactly as
`parse_ipfix_msg` does. -/
def setIdsFrom (buf : List Nat) : Nat → Nat → List Nat
  | 0, _ => []
  | fuel + 1, offset =>
    if offset < buf.length then
      match Ipfix.SetHeader.read (buf.drop offset) with
      | .error _ => []
      | .ok set => set.id :: setIdsFrom buf fuel (offset + Ipfix.SetHeader.SIZE + set.content_size)
    else []

/-- All set ids of an IPFIX datagram. -/
def setIds (buf : List Nat) : List Nat :=
  setIdsFrom buf (buf.length + 1) Ipfix.Header.SIZE

/-- Whether a cached template entry is an ordinary (emitting) template. -/
def templateOrdinary : Template → Bool
  | .IpfixDataSet _ => true
  | .IpfixOptionDataSet _ => false

/-- No ordinary template is cached under `key`: data sets from `key` can
then never emit records. -/
def ordinaryFree (st : ExporterList) (key : Exporter) : Bool :=
  match lookupExporter st key with
  | none => true
  | some infos => infos.template.all (fun p => !templateOrdinary p.2)

/-- A parse result that put nothing on the emit list. -/
def emitsNothing (r : Except String (List Ipfix.DataSet)) : Bool :=
  match r with
  | .ok l => l.isEmpty
  | .error _ => true

/-! ### Concrete datagrams -/

/-- The 48-octet NetFlow v5 record of spec scenario 2. -/
def v5RecordBytes : List Nat :=
  [0x70, 0x0a, 0x14, 0x0a, 0xac, 0x1e, 0xbe, 0x0a, 0xac, 0xc7, 0x0f, 0x01,
   0x00, 0x00, 0x00, 0x00, 0x00, 0x00, 0x03, 0x1b, 0x00, 0x00, 0x01, 0x03,
   0x00, 0x00, 0x02, 0x36, 0x00, 0x00, 0x03, 0xa8, 0x00, 0x28, 0x00, 0x50,
   0x00, 0x00, 0x06, 0x00, 0xc3, 0x0d, 0x35, 0xbd, 0x15, 0x1a, 0x00, 0x00]

/-- A well-formed 72-octet v5 datagram: header with `count = 1` and
sampling word 0, followed by the record above. -/
def v5Msg72 : List Nat :=
  [0x00, 0x05, 0x00, 0x01, 0x00, 0x00, 0x00, 0x00, 0x00, 0x00, 0x00, 0x00,
   0x00, 0x00, 0x00, 0x00, 0x00, 0x00, 0x00, 0x00, 0x00, 0x00, 0x00, 0x00]
  ++ v5RecordBytes

/-- The same v5 datagram with 5 trailing garbage octets: the length still
satisfies `(77 - 24) / 48 = 1 = count`. -/
def v5Msg77 : List Nat := v5Msg72 ++ [0, 0, 0, 0, 0]

/-- A 10-octet datagram that starts with version 5. -/
def v5Short10 : List Nat := [0x00, 0x05, 0x00, 0x01, 0x00, 0x00, 0x00, 0x00, 0x00, 0x00]

/-- An IPFIX datagram whose first template set carries the unassigned IANA
id 65, followed by a second, perfectly valid template set (id 257, one
`OctetDeltaCount` field of 8 octets). -/
def ipfixBadTemplateMsg : List Nat :=
  [0x00, 0x0a, 0x00, 0x28, 0x00, 0x00, 0x00, 0x00, 0x00, 0x00, 0x00, 0x00,
   0x00, 0x00, 0x00, 0x08,
   0x00, 0x02, 0x00, 0x0c, 0x01, 0x00, 0x00, 0x01, 0x00, 0x41, 0x00, 0x04,
   0x00, 0x02, 0x00, 0x0c, 0x01, 0x01, 0x00, 0x01, 0x00, 0x01, 0x00, 0x08]

/-- An IPFIX datagram installing template 256 with a single 8-octet
`OctetDeltaCount` field (domain id 8). -/
def ipfixTemplateMsg : List Nat :=
  [0x00, 0x0a, 0x00, 0x1c, 0x00, 0x00, 0x00, 0x00, 0x00, 0x00, 0x00, 0x00,
   0x00, 0x00, 0x00, 0x08,
   0x00, 0x02, 0x00, 0x0c, 0x01, 0x00, 0x00, 0x01, 0x00, 0x01, 0x00, 0x08]

/-- An IPFIX datagram with one data set for template 256 holding exactly
one 8-octet record (value 0x12). -/
def ipfixDataMsg : List Nat :=
  [0x00, 0x0a, 0x00, 0x1c, 0x00, 0x00, 0x00, 0x00, 0x00, 0x00, 0x00, 0x00,
   0x00, 0x00, 0x00, 0x08,
   0x01, 0x00, 0x00, 0x0c, 0x00, 0x00, 0x00, 0x00, 0x00, 0x00, 0x00, 0x12]

/-- An IPFIX datagram whose single data set for template 256 holds one full
8-octet record followed by 5 leftover octets — more than the 4-octet
padding allowance, fewer than a record. -/
def ipfixUnderflowMsg : List Nat :=
  [0x00, 0x0a, 0x00, 0x21, 0x00, 0x00, 0x00, 0x00, 0x00, 0x00, 0x00, 0x00,
   0x00, 0x00, 0x00, 0x08,
   0x01, 0x00, 0x00, 0x11, 0x00, 0x00, 0x00, 0x00, 0x00, 0x00, 0x00, 0x12,
   0x00, 0x00, 0x00, 0x00, 0x00]

/-- The exporter source `127.0.0.1` of the source tests. -/
def ip127 : IpAddr := { a := 127, b := 0, c := 0, d := 1 }

/-- The other exporter source `10.0.0.8` of the cross-exporter test. -/
def ip10 : IpAddr := { a := 10, b := 0, c := 0, d := 8 }

/-- The exporter cache after `ipfixTemplateMsg` arrives from `127.0.0.1`. -/
def stAfterTemplate : ExporterList := (parse_ipfix_msg ip127 ipfixTemplateMsg []).1

/-! ### Spec-side definitions for the record-decoding refinement -/

/-- The sum of the declared field lengths of a field list. -/
def sumLen (fields : List Ipfix.TemplateField) : Nat :=
  (fields.map (fun f => f.length)).sum

/-- Modelled from the spec: "for each field in the referenced template,
dispatch on declared length: 1→u8, 2→u16, 4→u32, 8→u64, 16→u128,
other→opaque bytes of exactly that length", interpreting the field's raw
byte slice big-endian. -/
def interpField (len : Nat) (bytes : List Nat) : Ipfix.FieldValue :=
  match len with
  | 1 => .U8 (beNat bytes)
  | 2 => .U16 (beNat bytes)
  | 4 => .U32 (beNat bytes)
  | 8 => .U64 (beNat bytes)
  | 16 => .U128 (beNat bytes)
  | _ => .Dyn bytes

/-- The (field kind, value) pairs of a record as the spec describes them:
field `i` is interpreted from the byte slice starting at the sum of the
previous declared lengths, of exactly its declared length. -/
def recordSpecPairs (buf : List Nat) :
    List Ipfix.TemplateField → Nat → List (Ipfix.FieldType × Ipfix.FieldValue)
  | [], _ => []
  | f :: rest, offset =>
    (f.id, interpField f.length (bslice buf offset (offset + f.length)))
      :: recordSpecPairs buf rest (offset + f.length)

/-- The record map the spec predicts: the pairs above, inserted in order. -/
def mkRecordMap (buf : List Nat) (fields : List Ipfix.TemplateField) :
    List (Ipfix.FieldType × Ipfix.FieldValue) :=
  (recordSpecPairs buf fields 0).foldl (fun m p => Ipfix.insertRep p.1 p.2 m) []

/-! ### A state-free mirror of the option-data loop (for the idempotence
proof): the records decoded from the set, and whether the loop succeeds.
Record decoding does not depend on the exporter state, so `optionDataLoop`
factors through this function. -/

/-- The records the option-data `while` loop decodes, with its outcome. -/
def optionRecords (buf : List Nat) (t : Ipfix.OptionDataSetTemplate)
    (endOfSet : Nat) : Nat → Nat → List Ipfix.DataSet × Except String Unit
  | 0, _ => ([], .error "recursion limit")
  | fuel + 1, offset =>
    if offset + 4 < endOfSet then
      match Ipfix.DataSet.read (buf.drop offset) t.fields t.length with
      | .error e => ([], .error e)
      | .ok msg =>
        let r := optionRecords buf t endOfSet fuel (offset + t.length)
        (msg :: r.1, r.2)
    else ([], .ok ())

/-- The last `SamplingInterval` value (as a `U32`) carried by a record
list, if any. -/
def lastSamplingValue : List Ipfix.DataSet → Option Nat
  | [] => none
  | r :: rs =>
    match lastSamplingValue rs with
    | some v => some v
    | none =>
      match List.lookup Ipfix.FieldType.SamplingInterval r.fields with
      | some (.U32 v) => some v
      | _ => none

/-- A field list used to exercise the record-decoding refinement: a u16
port, a u32 address and a 3-octet opaque field. -/
def c7fields : List Ipfix.TemplateField :=
  [{ id := 7, length := 2 }, { id := 8, length := 4 }, { id := 83, length := 3 }]

/-- Ten bytes of record data for `c7fields` (whose lengths sum to 9). -/
def c7buf : List Nat := [1, 2, 3, 4, 5, 6, 7, 8, 9, 10]

/-- The template `ipfixTemplateMsg` carries (template 256, one 8-octet
`OctetDeltaCount` field). -/
def c7template : Ipfix.DataSetTemplate :=
  { header := { id := 256, field_count := 1 }
    fields := [{ id := 1, length := 8 }]
    length := 8 }

/-- An option template carrying a single 4-octet `SamplingInterval` field. -/
def c10template : Ipfix.OptionDataSetTemplate :=
  { header := { id := 512, field_count := 1, scope_field_count := 1 }
    fields := [{ id := 34, length := 4 }]
    length := 4 }

/-- Option-data-set content: one record with `SamplingInterval = 10`, one
padding octet. -/
def c10buf : List Nat := [0, 0, 0, 10, 0]

/-- A record carrying u64 octet and packet counters and a u8 protocol. -/
def c8record : Ipfix.DataSet :=
  { fields := [(Ipfix.FieldType.OctetDeltaCount, .U64 10),
               (Ipfix.FieldType.PacketDeltaCount, .U64 3),
               (4, .U8 6)] }

/-! ## Theorems -/

/-- C6: decoding the 48-octet NetFlow v5 record of spec scenario 2 with the
pipeline codec yields srcAddr 112.10.20.10, dstAddr 172.30.190.10,
packets 795, octets 259, srcPort 40, dstPort 80, protocol 6, srcAs 49933,
dstAs 13757 and duration 370; the packets field is read from record octets
16..20 and the octets field from octets 20..24. -/
theorem c6_v5_record_decode :
    ((Netflow5.DataSet.read v5RecordBytes).toOption.map (fun ds =>
        (ds.src_addr, ds.dst_addr, ds.packets, ds.octets, ds.src_port,
         ds.dst_port, ds.protocol, ds.src_as, ds.dst_as, ds.duration)) =
      some (beNat [112, 10, 20, 10], beNat [172, 30, 190, 10], 795, 259,
        40, 80, 6, 49933, 13757, 370)) ∧
    (Netflow5.DataSet.read v5RecordBytes).toOption.map
        (fun ds => (ds.packets, ds.octets)) =
      some (beNat (bslice v5RecordBytes 16 20), beNat (bslice v5RecordBytes 20 24)) := by
  exact ⟨rfl, rfl⟩

/-- C4: a datagram carrying version 5 whose length is between 2 and 23
octets does not produce a decode error: `parse_v5_msg` slices
`buf[0..24]` before any length check, which panics (modelled `none`), and
the `listen` iteration ends in a panic rather than a logged error. -/
theorem c4_short_v5_datagram_panics (src : IpAddr) (st : ExporterList) :
    parse_v5_msg v5Short10 = none ∧
    listen_step src v5Short10 st = (st, [], .panicked) := by
  exact ⟨rfl, rfl⟩

/-- C1: a datagram that decodes to a non-empty record list (here one v5
record) is not pushed onto the consumer channel: the send in `listen` is
commented out, so the pushed-list component of the iteration is empty. -/
theorem c1_nonempty_parse_never_pushed (src : IpAddr) (st : ExporterList) :
    parsedCount (listen_step src v5Msg72 st).2.2 = some 1 ∧
    (listen_step src v5Msg72 st).2.1 = [] := by
  exact ⟨rfl, rfl⟩

/-- C2 counterexample: a datagram whose first template set carries unknown
IANA id 65 and whose second set is a valid template set.  Were only the
malformed template dropped, the second set would still be processed and
template 257 installed; instead the parse fails and the exporter cache
stays empty. -/
theorem c2_counterexample :
    (parse_ipfix_msg ip127 ipfixBadTemplateMsg []).1 = [] ∧
    exceptOk (parse_ipfix_msg ip127 ipfixBadTemplateMsg []).2 = false := by
  exact ⟨rfl, rfl⟩

/-- C2 (amended): a template field with an unknown IANA id rejects the
whole datagram — `parse_ipfix_msg` returns the field-resolution error, the
exporter cache is returned unchanged (the remaining sets, valid templates
included, are not processed), and no records are emitted. -/
theorem c2_unknown_id_rejects_datagram (src : IpAddr) (st : ExporterList) :
    parse_ipfix_msg src ipfixBadTemplateMsg st =
      (st, Except.error "No FieldType found for value : 65") := by
  rfl

/-- C3 counterexample: template 256 (one 8-octet field) is installed; a
data set holds one full record and then 5 leftover octets.  The claim
predicts the first record is still emitted and the parse succeeds; instead
the whole datagram is rejected. -/
theorem c3_counterexample :
    exceptOk (parse_ipfix_msg ip127 ipfixUnderflowMsg stAfterTemplate).2 = false := by
  rfl

/-- C3 (amended): a record-decode underflow inside an accepted template
rejects the whole datagram: `parse_ipfix_msg` returns the DataSet
short-buffer error, emits no records at all — the records decoded before
the underflow included — and leaves the exporter cache unchanged. -/
theorem c3_underflow_rejects_datagram :
    parse_ipfix_msg ip127 ipfixUnderflowMsg stAfterTemplate =
      (stAfterTemplate, Except.error "Not enough space in buffer to read IPFIX DataSet") ∧
    emitsNothing (parse_ipfix_msg ip127 ipfixUnderflowMsg stAfterTemplate).2 = true := by
  exact ⟨rfl, rfl⟩

/-- Slicing inside an initial slice is slicing the original list. -/
theorem bslice_bslice (buf : List Nat) (n a b : Nat) (h : b ≤ n) :
    bslice (bslice buf 0 n) a b = bslice buf a b := by
  simp only [bslice, Nat.sub_zero, List.drop_zero, List.drop_take, List.take_take]
  congr 1
  omega

/-- A v5 record read succeeds exactly when 48 octets remain. -/
theorem v5_read_ok_of_length {l : List Nat} (h : 48 ≤ l.length) :
    ∃ d, Netflow5.DataSet.read l = .ok d := by
  unfold Netflow5.DataSet.read
  rw [if_neg (by simp only [Netflow5.DataSet.SIZE]; omega)]
  exact ⟨_, rfl⟩

/-- The v5 record loop: when the remaining length is a multiple of 48 it
succeeds and appends exactly one record per 48 octets. -/
theorem v5_loop_length (buf : List Nat) (sampl : Nat) :
    ∀ fuel offset acc, offset ≤ buf.length → (buf.length - offset) % 48 = 0 →
      buf.length - offset < fuel →
      ∃ l, v5_loop buf sampl fuel offset acc = .ok l ∧
        l.length = acc.length + (buf.length - offset) / 48
  | 0, offset, acc, _, _, hfuel => absurd hfuel (by omega)
  | fuel + 1, offset, acc, hoff, hmod, hfuel => by
    by_cases hlt : offset < buf.length
    · have h48 : 48 ≤ buf.length - offset := by omega
      obtain ⟨d, hd⟩ : ∃ d, Netflow5.DataSet.read (buf.drop offset) = .ok d :=
        v5_read_ok_of_length (by simp only [List.length_drop]; omega)
      obtain ⟨l, hl, hlen⟩ := v5_loop_length buf sampl fuel (offset + 48)
        (acc ++ [d.add_sampling sampl]) (by omega) (by omega) (by omega)
      refine ⟨l, ?_, ?_⟩
      · unfold v5_loop
        rw [if_pos hlt, hd]
        exact hl
      · rw [hlen]
        simp only [List.length_append, List.length_singleton]
        omega
    · refine ⟨acc, ?_, ?_⟩
      · unfold v5_loop
        rw [if_neg hlt]
      · have h0 : buf.length - offset = 0 := by omega
        rw [h0]
        rfl

/-- For long-enough datagrams `parse_v5_msg` is the count check followed by
the record loop (no panic, the header read succeeds). -/
theorem parse_v5_msg_eq (buf : List Nat) (h24 : 24 ≤ buf.length) :
    parse_v5_msg buf =
      (if (buf.length - 24) / 48 ≠ v5Count buf
       then some (.error "Mismatch pdu number")
       else some (v5_loop buf (beNat (bslice buf 22 24) % 16384)
         (buf.length + 1) 24 [])) := by
  have hb : ¬ buf.length < Netflow5.Header.SIZE := by
    simp only [Netflow5.Header.SIZE]; omega
  have hslice : ¬ (bslice buf 0 Netflow5.Header.SIZE).length < Netflow5.Header.SIZE := by
    simp only [bslice, Netflow5.Header.SIZE, Nat.sub_zero, List.drop_zero,
      List.length_take]
    omega
  unfold parse_v5_msg Netflow5.Header.read
  rw [if_neg hb, if_neg hslice]
  simp only [Netflow5.Header.SIZE, Netflow5.DataSet.SIZE, Netflow5.Header.sampl_interval]
  rw [bslice_bslice buf 24 2 4 (by omega), bslice_bslice buf 24 22 24 (by omega)]
  rfl

/-- C5 (amended): for a v5 datagram of length `L ≥ 24` with `L - 24` a
multiple of 48, the decoder returns exactly `(L - 24) / 48` records when
that quotient equals `header.count`, and rejects the whole datagram with a
count-mismatch error (no records) when it does not.  The original claim
needs the divisibility condition: with trailing bytes that keep
`(L - 24) / 48 = N` the decoder errors instead of returning `N` records
(see the counterexample), and for `L < 24` it panics (see C4). -/
theorem c5_v5_count_contract (buf : List Nat) (h24 : 24 ≤ buf.length)
    (hdiv : (buf.length - 24) % 48 = 0) :
    match parse_v5_msg buf with
    | some (.ok l) => l.length = (buf.length - 24) / 48 ∧
        v5Count buf = (buf.length - 24) / 48
    | some (.error _) => v5Count buf ≠ (buf.length - 24) / 48
    | none => False := by
  rw [parse_v5_msg_eq buf h24]
  by_cases hc : (buf.length - 24) / 48 ≠ v5Count buf
  · rw [if_pos hc]
    omega
  · rw [if_neg hc]
    obtain ⟨l, hl, hlen⟩ := v5_loop_length buf (beNat (bslice buf 22 24) % 16384)
      (buf.length + 1) 24 [] h24 hdiv (by omega)
    rw [hl]
    refine ⟨by simpa using hlen, by omega⟩

/-- C5 counterexample: a 77-octet v5 datagram with `count = 1` and
`(77 - 24) / 48 = 1`: the claim predicts exactly one decoded record, but
the decoder rejects the datagram (the 5 trailing octets make the final
48-octet record read fail). -/
theorem c5_counterexample :
    v5Count v5Msg77 = 1 ∧ v5Msg77.length = 77 ∧ (77 - 24) / 48 = 1 ∧
    v5Records (parse_v5_msg v5Msg77) = none := by
  exact ⟨rfl, rfl, rfl, rfl⟩

/-- C5 witness: the amended contract applied to the well-formed 72-octet
datagram with `count = 1`. -/
theorem c5_witness :
    (match parse_v5_msg v5Msg72 with
     | some (.ok l) => l.length = (v5Msg72.length - 24) / 48 ∧
         v5Count v5Msg72 = (v5Msg72.length - 24) / 48
     | some (.error _) => v5Count v5Msg72 ≠ (v5Msg72.length - 24) / 48
     | none => False) :=
  c5_v5_count_contract v5Msg72 (by decide) (by decide)

/-- `buf[i]` equals the big-endian value of the one-octet slice at `i`. -/
theorem byteAt_eq_beNat (buf : List Nat) (i : Nat) :
    byteAt buf i = beNat (bslice buf i (i + 1)) := by
  induction buf generalizing i with
  | nil => simp [byteAt, bslice, beNat]
  | cons a t ih =>
    cases i with
    | zero => simp [byteAt, bslice, beNat]
    | succ n =>
      simpa [byteAt, bslice, beNat, List.getD_cons_succ] using ih n

/-- The per-field dispatch of the source equals the spec's interpretation
of the field's raw byte slice. -/
theorem readOne_eq_interp (buf : List Nat) (offset len : Nat) :
    Ipfix.readOne buf offset len = interpField len (bslice buf offset (offset + len)) :=
  match len with
  | 0 => rfl
  | 1 => by simp only [Ipfix.readOne, interpField, byteAt_eq_beNat]
  | 2 => rfl
  | 3 => rfl
  | 4 => rfl
  | 5 => rfl
  | 6 => rfl
  | 7 => rfl
  | 8 => rfl
  | 9 => rfl
  | 10 => rfl
  | 11 => rfl
  | 12 => rfl
  | 13 => rfl
  | 14 => rfl
  | 15 => rfl
  | 16 => rfl
  | _ + 17 => rfl

/-- The field-reading loop is the fold of the spec-side pair list. -/
theorem readFields_eq_spec (buf : List Nat) :
    ∀ (fields : List Ipfix.TemplateField) (offset : Nat)
      (m : List (Ipfix.FieldType × Ipfix.FieldValue)),
      Ipfix.readFields buf fields offset m =
        (recordSpecPairs buf fields offset).foldl
          (fun m p => Ipfix.insertRep p.1 p.2 m) m
  | [], _, _ => rfl
  | f :: rest, offset, m => by
    unfold Ipfix.readFields recordSpecPairs
    simp only [List.foldl_cons]
    rw [readOne_eq_interp]
    exact readFields_eq_spec buf rest (offset + f.length) _

/-- `sumLen` over an appended singleton. -/
theorem sumLen_append (fs : List Ipfix.TemplateField) (f : Ipfix.TemplateField) :
    sumLen (fs ++ [f]) = sumLen fs + f.length := by
  simp [sumLen]

/-- The template-field loop accumulates exactly the sum of the declared
field lengths. -/
theorem fieldsLoop_sumLen (buf : List Nat) :
    ∀ (n offset : Nat) (fs : List Ipfix.TemplateField) (len : Nat)
      (fs' : List Ipfix.TemplateField) (len' off' : Nat),
      Ipfix.fieldsLoop buf n offset fs len = .ok (fs', len', off') →
      len' + sumLen fs = len + sumLen fs'
  | 0, offset, fs, len, fs', len', off', h => by
    unfold Ipfix.fieldsLoop at h
    injection h with h
    injection h with h1 h
    injection h with h2 _
    subst h1
    subst h2
    omega
  | n + 1, offset, fs, len, fs', len', off', h => by
    unfold Ipfix.fieldsLoop at h
    cases hr : Ipfix.TemplateField.read (buf.drop offset) with
    | error e => rw [hr] at h; cases h
    | ok f =>
      rw [hr] at h
      have := fieldsLoop_sumLen buf n (offset + Ipfix.TemplateField.SIZE)
        (fs ++ [f]) (len + f.length) fs' len' off' h
      rw [sumLen_append] at this
      omega

/-- C7: decoding a data record under a field list interprets each field's
raw bytes by its declared length (1→u8, 2→u16, 4→u32, 8→u64, 16→u128,
anything else as opaque bytes of exactly that length, big-endian), the
record being the spec-side map `mkRecordMap`; and the cached total length
of an installed template — by which the data-set walk advances per record —
is the sum of its declared field lengths. -/
theorem c7_record_decode_dispatch :
    (∀ (buf : List Nat) (fields : List Ipfix.TemplateField) (min_size : Nat),
      min_size ≤ buf.length →
      Ipfix.DataSet.read buf fields min_size = .ok { fields := mkRecordMap buf fields }) ∧
    (∀ (buf : List Nat) (t : Ipfix.DataSetTemplate) (n : Nat),
      Ipfix.DataSetTemplate.read buf = .ok (t, n) → t.length = sumLen t.fields) := by
  constructor
  · intro buf fields min_size h
    unfold Ipfix.DataSet.read
    rw [if_neg (by omega)]
    rw [readFields_eq_spec]
    rfl
  · intro buf t n h
    unfold Ipfix.DataSetTemplate.read at h
    cases hh : Ipfix.TemplateHeader.read buf with
    | error e => simp only [hh] at h; cases h
    | ok header =>
      simp only [hh] at h
      cases hl : Ipfix.fieldsLoop buf header.field_count Ipfix.TemplateHeader.SIZE [] 0 with
      | error e => simp only [hl] at h; cases h
      | ok r =>
        obtain ⟨fields, length, offset⟩ := r
        simp only [hl] at h
        injection h with h
        injection h with ht _
        subst ht
        have := fieldsLoop_sumLen buf header.field_count Ipfix.TemplateHeader.SIZE
          [] 0 fields length offset hl
        simpa [sumLen] using this

/-- C7 witness: the dispatch applied to a concrete field list (u16, u32 and
opaque 3-octet fields over ten bytes), and the cached-length identity on
the template that `ipfixTemplateMsg` installs. -/
theorem c7_witness :
    (9 ≤ c7buf.length ∧
      Ipfix.DataSet.read c7buf c7fields 9 = .ok { fields := mkRecordMap c7buf c7fields }) ∧
    (Ipfix.DataSetTemplate.read (ipfixTemplateMsg.drop 20) = .ok (c7template, 8) ∧
      c7template.length = sumLen c7template.fields) :=
  ⟨⟨by decide, c7_record_decode_dispatch.1 c7buf c7fields 9 (by decide)⟩,
   ⟨by decide, c7_record_decode_dispatch.2 (ipfixTemplateMsg.drop 20) c7template 8 (by decide)⟩⟩

/-- `scaleU64` at its own key: a present u64 value is multiplied (u64
arithmetic); any other kind of value, or an absent key, is untouched. -/
theorem lookup_scaleU64_self (k : Ipfix.FieldType) (s : Nat) :
    ∀ m : List (Ipfix.FieldType × Ipfix.FieldValue),
      List.lookup k (Ipfix.scaleU64 k s m) =
        (match List.lookup k m with
         | some (.U64 v) => some (.U64 (v * s % 2 ^ 64))
         | r => r)
  | [] => rfl
  | (k', v') :: rest => by
    by_cases h : k' = k
    · subst h
      unfold Ipfix.scaleU64
      rw [if_pos rfl]
      cases v' <;> simp [List.lookup]
    · unfold Ipfix.scaleU64
      rw [if_neg h]
      have hbeq : (k == k') = false := by
        simp [Ne.symm h]
      simp only [List.lookup, hbeq]
      exact lookup_scaleU64_self k s rest

/-- `scaleU64` leaves every other key's entry unchanged. -/
theorem lookup_scaleU64_other (k q : Ipfix.FieldType) (s : Nat) (hne : q ≠ k) :
    ∀ m : List (Ipfix.FieldType × Ipfix.FieldValue),
      List.lookup q (Ipfix.scaleU64 k s m) = List.lookup q m
  | [] => rfl
  | (k', v') :: rest => by
    by_cases h : k' = k
    · subst h
      unfold Ipfix.scaleU64
      rw [if_pos rfl]
      have hbeq : (q == k') = false := by simp [hne]
      cases v' <;> simp only [List.lookup, hbeq]
    · unfold Ipfix.scaleU64
      rw [if_neg h]
      simp only [List.lookup]
      cases hq : q == k' with
      | true => rfl
      | false => exact lookup_scaleU64_other k q s hne rest

/-- C8: when the effective sampling interval `s` is positive,
`DataSet::add_sampling` multiplies an `OctetDeltaCount` carried as a u64 by
`s` (u64 arithmetic) in place, likewise `PacketDeltaCount`; entries of any
other kind or width, and every other field, are left unchanged. -/
theorem c8_sampling_scales_counters (d : Ipfix.DataSet) (s : Nat) (hs : 0 < s) :
    (List.lookup Ipfix.FieldType.OctetDeltaCount (d.add_sampling s).fields =
      (match List.lookup Ipfix.FieldType.OctetDeltaCount d.fields with
       | some (.U64 v) => some (.U64 (v * s % 2 ^ 64))
       | r => r)) ∧
    (List.lookup Ipfix.FieldType.PacketDeltaCount (d.add_sampling s).fields =
      (match List.lookup Ipfix.FieldType.PacketDeltaCount d.fields with
       | some (.U64 v) => some (.U64 (v * s % 2 ^ 64))
       | r => r)) ∧
    (∀ q : Ipfix.FieldType, q ≠ Ipfix.FieldType.OctetDeltaCount →
      q ≠ Ipfix.FieldType.PacketDeltaCount →
      List.lookup q (d.add_sampling s).fields = List.lookup q d.fields) := by
  unfold Ipfix.DataSet.add_sampling
  rw [if_pos hs]
  refine ⟨?_, ?_, ?_⟩
  · rw [lookup_scaleU64_other Ipfix.FieldType.PacketDeltaCount
      Ipfix.FieldType.OctetDeltaCount s (by decide)]
    exact lookup_scaleU64_self _ s _
  · rw [lookup_scaleU64_self Ipfix.FieldType.PacketDeltaCount s _]
    rw [lookup_scaleU64_other Ipfix.FieldType.OctetDeltaCount
      Ipfix.FieldType.PacketDeltaCount s (by decide)]
  · intro q hq1 hq2
    rw [lookup_scaleU64_other _ _ _ hq2, lookup_scaleU64_other _ _ _ hq1]

/-- C8 witness: sampling 10 over a record with octet counter 10, packet
counter 3 and a u8 protocol field. -/
theorem c8_witness :
    (0 : Nat) < 10 ∧
    (List.lookup Ipfix.FieldType.OctetDeltaCount (c8record.add_sampling 10).fields =
      (match List.lookup Ipfix.FieldType.OctetDeltaCount c8record.fields with
       | some (.U64 v) => some (.U64 (v * 10 % 2 ^ 64))
       | r => r)) ∧
    (List.lookup Ipfix.FieldType.PacketDeltaCount (c8record.add_sampling 10).fields =
      (match List.lookup Ipfix.FieldType.PacketDeltaCount c8record.fields with
       | some (.U64 v) => some (.U64 (v * 10 % 2 ^ 64))
       | r => r)) ∧
    List.lookup 4 (c8record.add_sampling 10).fields = List.lookup 4 c8record.fields :=
  ⟨by decide,
   (c8_sampling_scales_counters c8record 10 (by decide)).1,
   (c8_sampling_scales_counters c8record 10 (by decide)).2.1,
   (c8_sampling_scales_counters c8record 10 (by decide)).2.2 4 (by decide) (by decide)⟩

/-- One sampling update rewrites the sampling interval to the record's
`SamplingInterval` value (if carried as a u32) and touches nothing else. -/
theorem applySamplingRecord_eq (s : ExporterInfos) (r : Ipfix.DataSet) :
    applySamplingRecord s r =
      { s with sampling := (lastSamplingValue [r]).getD s.sampling } := by
  simp only [applySamplingRecord, lastSamplingValue]
  cases h : List.lookup Ipfix.FieldType.SamplingInterval r.fields with
  | none => rfl
  | some v =>
    cases v with
    | U32 x =>
      dsimp only [Option.getD]
      by_cases hx : s.sampling ≠ x
      · rw [if_pos hx]
      · rw [if_neg hx]
        have hs : s.sampling = x := by omega
        rw [← hs]
    | U8 x => rfl
    | U16 x => rfl
    | U64 x => rfl
    | U128 x => rfl
    | Dyn x => rfl

/-- Folding sampling updates over a record list sets the sampling interval
to the last value carried and preserves the template map. -/
theorem foldl_applySampling :
    ∀ (rs : List Ipfix.DataSet) (s : ExporterInfos),
      rs.foldl applySamplingRecord s =
        { s with sampling := (lastSamplingValue rs).getD s.sampling }
  | [], s => rfl
  | r :: rs, s => by
    simp only [List.foldl_cons]
    rw [foldl_applySampling rs (applySamplingRecord s r), applySamplingRecord_eq]
    show (⟨_, _⟩ : ExporterInfos) = ⟨_, _⟩
    simp only [lastSamplingValue]
    cases lastSamplingValue rs with
    | some v => rfl
    | none => rfl

/-- The option-data loop is the state-free record decode followed by the
fold of the sampling updates. -/
theorem optionDataLoop_eq (buf : List Nat) (t : Ipfix.OptionDataSetTemplate)
    (endOfSet : Nat) :
    ∀ (fuel offset : Nat) (infos : ExporterInfos),
      optionDataLoop buf t endOfSet fuel offset infos =
        ((optionRecords buf t endOfSet fuel offset).1.foldl applySamplingRecord infos,
         (optionRecords buf t endOfSet fuel offset).2)
  | 0, _, _ => rfl
  | fuel + 1, offset, infos => by
    by_cases h : offset + 4 < endOfSet
    · cases hr : Ipfix.DataSet.read (buf.drop offset) t.fields t.length with
      | error e =>
        unfold optionDataLoop optionRecords
        simp only [if_pos h, hr]
        rfl
      | ok msg =>
        unfold optionDataLoop optionRecords
        simp only [if_pos h, hr, List.foldl_cons]
        exact optionDataLoop_eq buf t endOfSet fuel (offset + t.length)
          (applySamplingRecord infos msg)
    · unfold optionDataLoop optionRecords
      simp only [if_neg h]
      rfl

/-- C10: processing the same option data set twice is idempotent on the
exporter state — when the first pass succeeds and yields state `s1`, a
second pass over the same set from `s1` returns `s1` unchanged, and no pass
ever touches the template map. -/
theorem c10_option_set_idempotent (buf : List Nat) (t : Ipfix.OptionDataSetTemplate)
    (endOfSet fuel offset : Nat) (s0 s1 : ExporterInfos)
    (h : optionDataLoop buf t endOfSet fuel offset s0 = (s1, .ok ())) :
    optionDataLoop buf t endOfSet fuel offset s1 = (s1, .ok ()) ∧
    s1.template = s0.template := by
  rw [optionDataLoop_eq, Prod.mk.injEq] at h
  obtain ⟨h1, h2⟩ := h
  rw [foldl_applySampling] at h1
  subst h1
  refine ⟨?_, rfl⟩
  rw [optionDataLoop_eq, h2, Prod.mk.injEq]
  refine ⟨?_, rfl⟩
  rw [foldl_applySampling]
  cases lastSamplingValue (optionRecords buf t endOfSet fuel offset).1 with
  | some v => rfl
  | none => rfl

/-- C10 witness: the option data set carrying `SamplingInterval = 10`,
applied twice from the default exporter state. -/
theorem c10_witness :
    optionDataLoop c10buf c10template 5 6 0 { sampling := 1, template := [] } =
      ({ sampling := 10, template := [] }, .ok ()) ∧
    optionDataLoop c10buf c10template 5 6 0 { sampling := 10, template := [] } =
      ({ sampling := 10, template := [] }, .ok ()) :=
  ⟨by decide,
   (c10_option_set_idempotent c10buf c10template 5 6 0
     { sampling := 1, template := [] } { sampling := 10, template := [] } (by decide)).1⟩

/-- Looking a key up right after storing it yields the stored value. -/
theorem lookup_store_self :
    ∀ (st : ExporterList) (key : Exporter) (v : ExporterInfos),
      lookupExporter (storeExporter st key v) key = some v
  | [], key, v => by simp [storeExporter, lookupExporter]
  | (k, w) :: rest, key, v => by
    unfold storeExporter
    by_cases h : k = key
    · rw [if_pos h]
      simp [lookupExporter]
    · rw [if_neg h]
      unfold lookupExporter
      rw [if_neg h]
      exact lookup_store_self rest key v

/-- Inserting a template satisfying `p` into a map whose templates all
satisfy `p` keeps the property. -/
theorem insertTemplate_all (id : Nat) (t : Template) (p : Template → Bool)
    (hp : p t = true) :
    ∀ l : List (Nat × Template), l.all (fun q => p q.2) = true →
      (insertTemplate id t l).all (fun q => p q.2) = true
  | [], _ => by simp [insertTemplate, hp]
  | (k, v) :: rest, h => by
    simp only [List.all_cons, Bool.and_eq_true] at h
    unfold insertTemplate
    by_cases hk : k = id
    · rw [if_pos hk]
      simp only [List.all_cons, Bool.and_eq_true]
      exact ⟨hp, h.2⟩
    · rw [if_neg hk]
      simp only [List.all_cons, Bool.and_eq_true]
      exact ⟨h.1, insertTemplate_all id t p hp rest h.2⟩

/-- A successful lookup in a map whose values all satisfy `p` satisfies
`p`. -/
theorem lookup_all (p : Template → Bool) :
    ∀ (l : List (Nat × Template)) (id : Nat) (v : Template),
      l.all (fun q => p q.2) = true → List.lookup id l = some v → p v = true
  | [], _, _, _, h => by cases h
  | (k, w) :: rest, id, v, hall, h => by
    simp only [List.all_cons, Bool.and_eq_true] at hall
    simp only [List.lookup] at h
    cases hik : (id == k) with
    | true =>
      rw [hik] at h
      injection h with h
      rw [← h]
      exact hall.1
    | false =>
      rw [hik] at h
      exact lookup_all p rest id v hall.2 h

/-- Installing an option template under `key` keeps `key` free of ordinary
templates. -/
theorem ordinaryFree_update_option (st : ExporterList) (key : Exporter)
    (id : Nat) (t : Ipfix.OptionDataSetTemplate)
    (h : ordinaryFree st key = true) :
    ordinaryFree (updateExporter st key (fun infos => { infos with
      template := insertTemplate id (.IpfixOptionDataSet t) infos.template })) key = true := by
  unfold updateExporter
  cases hl : lookupExporter st key with
  | none =>
    unfold ordinaryFree
    rw [lookup_store_self]
    simp [ExporterInfos.default, insertTemplate, templateOrdinary]
  | some infos =>
    unfold ordinaryFree at h
    rw [hl] at h
    unfold ordinaryFree
    rw [lookup_store_self]
    exact insertTemplate_all id (.IpfixOptionDataSet t)
      (fun tm => !templateOrdinary tm) (by simp [templateOrdinary]) infos.template h

/-- The option-template-set loop keeps the key free of ordinary
templates. -/
theorem optionTemplateLoop_ordinaryFree (src : IpAddr) (dom : Nat)
    (buf : List Nat) (endOfSet : Nat) :
    ∀ (fuel offset : Nat) (st : ExporterList),
      ordinaryFree st { addr := src, domain_id := dom } = true →
      ordinaryFree (optionTemplateLoop src dom buf endOfSet fuel offset st).1
        { addr := src, domain_id := dom } = true
  | 0, _, st, h => h
  | fuel + 1, offset, st, h => by
    unfold optionTemplateLoop
    by_cases hoff : offset + 4 < endOfSet
    · rw [if_pos hoff]
      cases Ipfix.OptionDataSetTemplate.read (buf.drop offset) with
      | error e => exact h
      | ok r =>
        exact optionTemplateLoop_ordinaryFree src dom buf endOfSet fuel
          (offset + r.2) _ (ordinaryFree_update_option st _ r.1.header.id r.1 h)
    · rw [if_neg hoff]
      exact h

/-- The option-data loop never changes the template map. -/
theorem optionDataLoop_template (buf : List Nat) (t : Ipfix.OptionDataSetTemplate)
    (endOfSet fuel offset : Nat) (infos : ExporterInfos) :
    (optionDataLoop buf t endOfSet fuel offset infos).1.template = infos.template := by
  rw [optionDataLoop_eq, foldl_applySampling]

/-- The set walk emits nothing when the exporter key holds no ordinary
template and the datagram carries no template set: option-template and
option-data sets may update the state, but the emit list never grows. -/
theorem walkSets_ordinaryFree_no_emit (src : IpAddr) (dom : Nat) (buf : List Nat) :
    ∀ (fuel offset : Nat) (st : ExporterList) (acc : List Ipfix.DataSet),
      ordinaryFree st { addr := src, domain_id := dom } = true →
      2 ∉ setIdsFrom buf fuel offset →
      ∀ l, (walkSets src dom buf fuel offset st acc).2 = .ok l → l = acc
  | 0, offset, st, acc, _, _, l, h => by
    unfold walkSets at h
    cases h
  | fuel + 1, offset, st, acc, hfree, hids, l, h => by
    simp only [walkSets] at h
    simp only [setIdsFrom] at hids
    by_cases hoff : offset < buf.length
    · rw [if_pos hoff] at h hids
      cases hsh : Ipfix.SetHeader.read (buf.drop offset) with
      | error e =>
        rw [hsh] at h
        cases h
      | ok set =>
        rw [hsh] at h hids
        dsimp only at h hids
        simp only [List.mem_cons, not_or] at hids
        obtain ⟨hne2, hids'⟩ := hids
        by_cases h2 : set.id = Ipfix.DataSetTemplate.SET_ID
        · exact absurd h2.symm hne2
        · rw [if_neg h2] at h
          by_cases h3 : set.id = Ipfix.OptionDataSetTemplate.SET_ID
          · rw [if_pos h3] at h
            cases hot : optionTemplateLoop src dom buf
                (offset + Ipfix.SetHeader.SIZE + set.content_size)
                (offset + Ipfix.SetHeader.SIZE + set.content_size + 1)
                (offset + Ipfix.SetHeader.SIZE) st with
            | mk st' r =>
              cases r with
              | error e =>
                simp only [hot] at h
                cases h
              | ok u =>
                cases u
                simp only [hot] at h
                refine walkSets_ordinaryFree_no_emit src dom buf fuel
                  (offset + Ipfix.SetHeader.SIZE + set.content_size) st' acc ?_ hids' l h
                have := optionTemplateLoop_ordinaryFree src dom buf
                  (offset + Ipfix.SetHeader.SIZE + set.content_size)
                  (offset + Ipfix.SetHeader.SIZE + set.content_size + 1)
                  (offset + Ipfix.SetHeader.SIZE) st hfree
                rw [hot] at this
                exact this
          · rw [if_neg h3] at h
            by_cases h256 : Ipfix.DataSet.MIN_SET_ID ≤ set.id
            · rw [if_pos h256] at h
              cases hle : lookupExporter st { addr := src, domain_id := dom } with
              | none =>
                simp only [hle] at h
                exact walkSets_ordinaryFree_no_emit src dom buf fuel _ st acc hfree hids' l h
              | some infos =>
                simp only [hle] at h
                have hall : infos.template.all (fun q => !templateOrdinary q.2) = true := by
                  unfold ordinaryFree at hfree
                  rw [hle] at hfree
                  exact hfree
                cases hlt : List.lookup set.id infos.template with
                | none =>
                  simp only [hlt] at h
                  exact walkSets_ordinaryFree_no_emit src dom buf fuel _ st acc hfree hids' l h
                | some tmpl =>
                  cases tmpl with
                  | IpfixDataSet t =>
                    have := lookup_all (fun tm => !templateOrdinary tm)
                      infos.template set.id (.IpfixDataSet t) hall hlt
                    simp [templateOrdinary] at this
                  | IpfixOptionDataSet t =>
                    simp only [hlt] at h
                    cases hod : optionDataLoop buf t
                        (offset + Ipfix.SetHeader.SIZE + set.content_size)
                        (offset + Ipfix.SetHeader.SIZE + set.content_size + 1)
                        (offset + Ipfix.SetHeader.SIZE) infos with
                    | mk infos' r =>
                      cases r with
                      | error e =>
                        simp only [hod] at h
                        cases h
                      | ok u =>
                        cases u
                        simp only [hod] at h
                        refine walkSets_ordinaryFree_no_emit src dom buf fuel
                          (offset + Ipfix.SetHeader.SIZE + set.content_size)
                          (storeExporter st { addr := src, domain_id := dom } infos')
                          acc ?_ hids' l h
                        unfold ordinaryFree
                        rw [lookup_store_self]
                        dsimp only
                        have htm : infos'.template = infos.template := by
                          have := optionDataLoop_template buf t
                            (offset + Ipfix.SetHeader.SIZE + set.content_size)
                            (offset + Ipfix.SetHeader.SIZE + set.content_size + 1)
                            (offset + Ipfix.SetHeader.SIZE) infos
                          rw [hod] at this
                          exact this
                        rw [htm]
                        exact hall
            · rw [if_neg h256] at h
              cases h
    · rw [if_neg hoff] at h
      injection h with h
      exact h.symm

/-- C9: templates are cached under the compound key (source address,
observation domain id) and are invisible under any other key — a datagram
carrying no template set, arriving under a key for which no ordinary
template is cached (in particular from a different source address or
domain than the one that installed a matching template id), emits zero
records. -/
theorem c9_cross_exporter_isolation (src : IpAddr) (buf : List Nat)
    (st : ExporterList)
    (hfree : ordinaryFree st { addr := src, domain_id := domainOf buf } = true)
    (hids : 2 ∉ setIds buf) :
    emitsNothing (parse_ipfix_msg src buf st).2 = true := by
  unfold parse_ipfix_msg
  cases hh : Ipfix.Header.read buf with
  | error e => rfl
  | ok header =>
    have hdom : header.domain_id = domainOf buf := by
      unfold Ipfix.Header.read at hh
      by_cases h16 : buf.length < Ipfix.Header.SIZE
      · rw [if_pos h16] at hh
        cases hh
      · rw [if_neg h16] at hh
        injection hh with hh
        rw [← hh]
        rfl
    dsimp only
    by_cases hlen : buf.length ≠ header.length
    · rw [if_pos hlen]
      rfl
    · rw [if_neg hlen]
      cases hw : (walkSets src header.domain_id buf (buf.length + 1)
          Ipfix.Header.SIZE st []).2 with
      | error e => rfl
      | ok l =>
        have hl : l = [] := by
          refine walkSets_ordinaryFree_no_emit src header.domain_id buf
            (buf.length + 1) Ipfix.Header.SIZE st [] ?_ hids l hw
          rw [hdom]
          exact hfree
        unfold emitsNothing
        rw [hl]
        rfl

/-- C9 witness: the template installed from `127.0.0.1` is not visible to
`10.0.0.8` — the matching data set from the other source emits nothing. -/
theorem c9_witness :
    ordinaryFree stAfterTemplate { addr := ip10, domain_id := domainOf ipfixDataMsg } = true ∧
    2 ∉ setIds ipfixDataMsg ∧
    emitsNothing (parse_ipfix_msg ip10 ipfixDataMsg stAfterTemplate).2 = true :=
  ⟨by decide, by decide,
   c9_cross_exporter_isolation ip10 ipfixDataMsg stAfterTemplate (by decide) (by decide)⟩
